import Mathlib

/-!
# Verification of the xv2api credential-lifecycle manager

Shallow embedding of the OAuth 2.0 credential manager of `hack-ink/xv2api`
(`src/auth.rs`) and of the request-execution layer (`src/lib.rs`), together
with theorems settling the specification's claims about them.

Modelling conventions:
* Network exchanges against the authorization server (`oauth2`'s
  `exchange_refresh_token` / `exchange_code` request) are abstracted as
  functions of an `Env` record; each performed exchange is recorded as an
  event in an output trace, so "no network call was made" is the statement
  that the trace holds no such event.
* `tracing::info!` lines that print a newly returned refresh token (the
  "surface the rotated refresh credential to the persistence collaborator"
  behaviour) are recorded as `Event.surfaceRefresh` events.
* The `tokio::sync::RwLock<Option<String>>` cell `bearer_token` is modelled
  as a plain `Option String` field for the sequential functions; the lock
  itself is modelled separately by an explicit interleaving machine
  (`Sys` / `stepTask` below) for the concurrency claims.
* Fallible Rust functions returning `Result<T>` become `Except Error T`.
* `serde_json::from_str` parsing is abstracted as a function argument
  (`String → Option _`), since the claims quantify over whether the body
  parses, not over JSON details.
-/

namespace Xv2api

/-- A token-endpoint response: `access_token().secret()` and the optional
`refresh_token()` of `oauth2`'s `StandardTokenResponse`. -/
structure TokenResponse where
  access_token : String
  refresh_token : Option String
deriving Repr, DecidableEq

/-- Observable effects of the authenticator and request layer:
token-endpoint calls (refresh grant / authorization-code grant), the log
lines surfacing a rotated refresh token to the operator (`tracing::info!`
in `refresh_bearer_token` / `interactive_flow`), and outbound downstream
API calls carrying a bearer token (`request_builder(&token).send()`). -/
inductive Event where
  | refreshExchangeCall : Event
  | codeExchangeCall : Event
  | surfaceRefresh : String → Event
  | downstreamCall : String → Event
deriving Repr, DecidableEq

/-- `ApiError` from `src/lib.rs`: the structured error body of the
X/Twitter API (`detail`, `status`, `title`, `type`). -/
structure ApiError where
  detail : String
  status : Nat
  title : String
  type_ : String
deriving Repr, DecidableEq

/-- The error enum of `src/error.rs`. Payloads of the transparent wrapper
variants (`Io`, `Oauth2`, `Reqwest`, `SerdeJson`) are not interpreted by
any claim and are dropped; `Any` keeps its message string and `Api` its
structured body. `Error::any(msg)` constructs `Any msg`. -/
inductive Error where
  | Any : String → Error
  | Io : Error
  | Oauth2 : Error
  | Reqwest : Error
  | SerdeJson : Error
  | Api : ApiError → Error
  | AuthenticationFailed : Error
  | OauthRequired : Error
  | RateLimit : Error
  | Unauthorized : Error
deriving Repr, DecidableEq

/-- The external world as seen by the authenticator: the authorization
server's token endpoint (one function per grant type, `.error ()` meaning
the server rejected the exchange or the request failed) and the single
line of operator input read from stdin in `interactive_flow`. -/
structure Env where
  refreshExchange : String → Except Unit TokenResponse
  codeExchange : String → Except Unit TokenResponse
  operatorInput : String

/-- The mutable/configured state of an `Authenticator` (`src/auth.rs`):
`refresh_token` is the optional refresh token loaded from the environment
at construction (read-only afterwards), `bearer_token` the contents of the
`Arc<RwLock<Option<String>>>` bearer-token cache. -/
structure AuthState where
  refresh_token : Option String
  bearer_token : Option String
deriving Repr, DecidableEq

/-- `Authenticator::refresh_bearer_token` (`src/auth.rs:78-97`): fails with
`Error::OauthRequired` if no refresh token is configured (the `ok_or(..)?`
runs before any request is built, so no network call happens); otherwise
performs one refresh-grant exchange, and on success takes the new access
token as bearer, logging (surfacing) the rotated refresh token when the
server returned one. -/
def refresh_bearer_token (env : Env) (st : AuthState) :
    Except Error String × List Event :=
  match st.refresh_token with
  | none => (.error .OauthRequired, [])
  | some rt =>
    match env.refreshExchange rt with
    | .error _ => (.error .Oauth2, [.refreshExchangeCall])
    | .ok resp =>
      let events := [Event.refreshExchangeCall] ++
        (match resp.refresh_token with
         | some t => [Event.surfaceRefresh t]
         | none => [])
      (.ok resp.access_token, events)

/-- Rust's `str::trim`: the input with leading and trailing whitespace
characters removed, written on the underlying character list (for ASCII
whitespace Lean's `Char.isWhitespace` and Rust's `char::is_whitespace`
agree; the claims only involve blank/whitespace-only input). -/
def trimInput (s : String) : String :=
  ⟨((s.data.dropWhile Char.isWhitespace).reverse.dropWhile
      Char.isWhitespace).reverse⟩

/-- `Authenticator::interactive_flow` (`src/auth.rs:100-143`): reads one
line of operator input, trims it, fails with
`Error::any("authorization code cannot be empty")` when the trimmed code
is empty (before any token-endpoint contact); otherwise performs one
authorization-code exchange, and on success returns the access token,
surfacing the returned refresh token when present. PKCE material, the
authorization URL and the CSRF token are generated locally and interpreted
by no claim, so they are not modelled. -/
def interactive_flow (env : Env) : Except Error String × List Event :=
  let code := trimInput env.operatorInput
  if code.isEmpty then
    (.error (.Any "authorization code cannot be empty"), [])
  else
    match env.codeExchange code with
    | .error _ => (.error .Oauth2, [.codeExchangeCall])
    | .ok resp =>
      let events := [Event.codeExchangeCall] ++
        (match resp.refresh_token with
         | some t => [Event.surfaceRefresh t]
         | none => [])
      (.ok resp.access_token, events)

/-- `Authenticator::request_bearer` (`src/auth.rs:67-75`): try the refresh
exchange first; if it returns `Ok` return that bearer, on any refresh
error fall back to the interactive flow. -/
def request_bearer (env : Env) (st : AuthState) :
    Except Error String × List Event :=
  match refresh_bearer_token env st with
  | (.ok bearer, tr) => (.ok bearer, tr)
  | (.error _, tr) =>
    match interactive_flow env with
    | (r, tr2) => (r, tr ++ tr2)

/-- `Authenticator::refresh_and_cache` (`src/auth.rs:156-164`): under the
write lock, run `request_bearer`; on success overwrite the cache with the
new bearer and return it; on failure the `?` propagates before the cache
assignment, so the state is returned unchanged. -/
def refresh_and_cache (env : Env) (st : AuthState) :
    Except Error String × AuthState × List Event :=
  match request_bearer env st with
  | (.ok bearer, tr) =>
    (.ok bearer, { st with bearer_token := some bearer }, tr)
  | (.error e, tr) => (.error e, st, tr)

/-- `Authenticator::authenticate` (`src/auth.rs:146-153`): return the
cached bearer if present (read lock only, no events, no state change),
else run `refresh_and_cache`. -/
def authenticate (env : Env) (st : AuthState) :
    Except Error String × AuthState × List Event :=
  match st.bearer_token with
  | some bearer => (.ok bearer, st, [])
  | none => refresh_and_cache env st

/-- A downstream HTTP response as consumed by `Api::handle_response`:
its status code and body text. -/
structure Response where
  status : Nat
  body : String
deriving Repr, DecidableEq

/-- `reqwest::StatusCode::is_success`: 2xx. -/
def statusIsSuccess (status : Nat) : Bool :=
  200 ≤ status && status < 300

/-- `Api::handle_response` (`src/lib.rs:87-104`): 401 ↦ `Unauthorized`,
429 ↦ `RateLimit`, any other non-success status ↦ the structured
`ApiError` when the body parses as one (`parseApiError` abstracts
`serde_json::from_str::<ApiError>`), else
`Error::any(format!("{status}: {txt}"))`; success ↦ the body text. -/
def handle_response (parseApiError : String → Option ApiError)
    (resp : Response) : Except Error String :=
  if resp.status == 401 then .error .Unauthorized
  else if resp.status == 429 then .error .RateLimit
  else if !statusIsSuccess resp.status then
    match parseApiError resp.body with
    | some e => .error (.Api e)
    | none => .error (.Any (toString resp.status ++ ": " ++ resp.body))
  else .ok resp.body

/-- `Api::execute_request` (`src/lib.rs:56-84`), with the two-iteration
`for attempt in 0..2` loop unrolled (the loop always returns within two
attempts). `send n token` is the response to the downstream call built by
`request_builder(&token)` on attempt `n`; `parseT` abstracts the final
`serde_json::from_str::<T>`. Attempt 0: if the status is 401, call
`refresh_and_cache` and retry once with the fresh token; otherwise (and
always on attempt 1, even for a second 401) route the response through
`handle_response` and deserialize the body. -/
def execute_request {T : Type} (parseApiError : String → Option ApiError)
    (parseT : String → Option T) (send : Nat → String → Response)
    (env : Env) (st : AuthState) :
    Except Error T × AuthState × List Event :=
  match authenticate env st with
  | (.error e, st1, tr1) => (.error e, st1, tr1)
  | (.ok token, st1, tr1) =>
    let resp0 := send 0 token
    if resp0.status == 401 then
      match refresh_and_cache env st1 with
      | (.error e, st2, tr2) =>
        (.error e, st2, tr1 ++ [.downstreamCall token] ++ tr2)
      | (.ok token2, st2, tr2) =>
        let resp1 := send 1 token2
        let tr := tr1 ++ [.downstreamCall token] ++ tr2 ++
          [.downstreamCall token2]
        match handle_response parseApiError resp1 with
        | .error e => (.error e, st2, tr)
        | .ok txt =>
          match parseT txt with
          | some v => (.ok v, st2, tr)
          | none => (.error .SerdeJson, st2, tr)
    else
      let tr := tr1 ++ [.downstreamCall token]
      match handle_response parseApiError resp0 with
      | .error e => (.error e, st1, tr)
      | .ok txt =>
        match parseT txt with
        | some v => (.ok v, st1, tr)
        | none => (.error .SerdeJson, st1, tr)

/-- Number of downstream API calls recorded in a trace. -/
def countDownstream (tr : List Event) : Nat :=
  (tr.filter fun e =>
    match e with
    | .downstreamCall _ => true
    | _ => false).length

/-!
## Interleaving machine for concurrent `authenticate()` callers

`authenticate` has two suspension points: the `read().await` on the
bearer-token lock, and inside `refresh_and_cache` the `write().await`
followed by the network exchange of `request_bearer` performed while the
write lock is held. The machine below runs one task per concurrent caller
through exactly these phases:

* `ready`: about to execute `bearer_token.read().await` — proceeds only
  when no writer holds the lock; if a bearer is cached the task finishes
  with it, else it moves on to `refresh_and_cache`;
* `waitWrite`: about to execute `bearer_token.write().await` — acquires
  the write lock when free. Mirroring the code, the task does NOT re-read
  the cache after acquiring the lock: it goes straight to the exchange;
* `exchanging`: holds the write lock with the `request_bearer` network
  exchange in flight; completing it stores the fresh bearer in the cache,
  releases the lock and finishes the task, incrementing the exchange
  counter. `bearers k` is the bearer produced by the k-th completed
  exchange (an environment where every acquisition succeeds).

A schedule is a list of task indices; scheduling a blocked or finished
task is a no-op step. -/
inductive TaskPC where
  | ready : TaskPC
  | waitWrite : TaskPC
  | exchanging : TaskPC
  | finished : String → TaskPC
deriving Repr, DecidableEq

/-- Global state of the interleaving machine: the shared bearer cache, the
holder of the write lock (if any), each task's program counter, and the
number of completed acquisition exchanges. -/
structure Sys where
  cache : Option String
  lockOwner : Option Nat
  tasks : Nat → TaskPC
  exchanges : Nat

/-- Pointwise update of the task table. -/
def setTask (ts : Nat → TaskPC) (i : Nat) (v : TaskPC) : Nat → TaskPC :=
  fun j => if j = i then v else ts j

/-- One atomic step of task `i` (between suspension points), as described
on the machine above. A blocked or finished task makes a no-op step. -/
def stepTask (bearers : Nat → String) (s : Sys) (i : Nat) : Sys :=
  if s.tasks i = .ready then
    if s.lockOwner = none then
      match s.cache with
      | some b => { s with tasks := setTask s.tasks i (.finished b) }
      | none => { s with tasks := setTask s.tasks i TaskPC.waitWrite }
    else s
  else if s.tasks i = .waitWrite then
    if s.lockOwner = none then
      { s with lockOwner := some i, tasks := setTask s.tasks i TaskPC.exchanging }
    else s
  else if s.tasks i = .exchanging then
    if s.lockOwner = some i then
      { cache := some (bearers s.exchanges), lockOwner := none,
        tasks := setTask s.tasks i (.finished (bearers s.exchanges)),
        exchanges := s.exchanges + 1 }
    else s
  else s

/-- Run the machine under a schedule (a list of task indices). -/
def run (bearers : Nat → String) (s : Sys) : List Nat → Sys
  | [] => s
  | i :: rest => run bearers (stepTask bearers s i) rest

/-- Lock-discipline invariant: a task whose exchange is in flight holds
the write lock. It implies that at most one exchange is in flight. -/
def lockGood (s : Sys) : Prop :=
  ∀ i, s.tasks i = .exchanging → s.lockOwner = some i

/-!
## Helper lemmas
-/

theorem interactive_flow_error_shape (env : Env) :
    (interactive_flow env).1 = .error (.Any "authorization code cannot be empty")
    ∨ (interactive_flow env).1 = .error .Oauth2
    ∨ ∃ b, (interactive_flow env).1 = .ok b := by
  unfold interactive_flow
  by_cases h : (trimInput env.operatorInput).isEmpty
  · simp [h]
  · simp only [h, Bool.false_eq_true, if_false]
    cases hc : env.codeExchange (trimInput env.operatorInput) with
    | error e => simp
    | ok resp => simp

/-- C1: as stated the claim is false. With a cached bearer `"b0"`, a
configured refresh token whose exchange the server rejects, and blank
operator input (so the interactive fallback fails too),
`refresh_and_cache` (the spec's `force_refresh()`) fails — and the state
still carries the stale cached `"b0"`: the cache is never cleared, so the
state ends `Cached "b0"`, not `Empty`. -/
theorem C1_counterexample :
    refresh_and_cache
        ⟨fun _ => .error (), fun _ => .error (), ""⟩
        ⟨some "rt0", some "b0"⟩
      = (.error (.Any "authorization code cannot be empty"),
         ⟨some "rt0", some "b0"⟩, [.refreshExchangeCall]) ∧
    (some "b0" : Option String) ≠ none := by
  exact ⟨rfl, by simp⟩

/-- C1 (amended): `refresh_and_cache` never clears the bearer cache before
re-acquisition: when the acquisition fails the authenticator state is
returned completely unchanged — a previously cached bearer stays cached —
and only on success is the cache overwritten, with the newly acquired
bearer. -/
theorem C1_amended_no_clear (env : Env) (st : AuthState) :
    (∀ e, (refresh_and_cache env st).1 = .error e →
      (refresh_and_cache env st).2.1 = st) ∧
    (∀ b, (refresh_and_cache env st).1 = .ok b →
      (refresh_and_cache env st).2.1 = { st with bearer_token := some b }) := by
  cases h : request_bearer env st with
  | mk r tr =>
    cases r with
    | error e => simp [refresh_and_cache, h]
    | ok b => simp [refresh_and_cache, h]

/-- Witness for `C1_amended_no_clear` at the concrete failing input of the
counterexample: the failed forced refresh leaves the state unchanged. -/
theorem C1_amended_no_clear_witness :
    (refresh_and_cache ⟨fun _ => .error (), fun _ => .error (), ""⟩
        ⟨some "rt0", some "b0"⟩).2.1 = ⟨some "rt0", some "b0"⟩ :=
  (C1_amended_no_clear ⟨fun _ => .error (), fun _ => .error (), ""⟩
      ⟨some "rt0", some "b0"⟩).1
    (.Any "authorization code cannot be empty") rfl

/-- C2: as stated the claim is false. With no refresh token configured but
a working interactive path (operator input `"thecode"`, which the code
exchange accepts with bearer `"ib"`), `refresh_and_cache` (the spec's
`force_refresh()`) does not fail with `OauthRequired`: it executes the
interactive authorization path (the trace holds the code-exchange call)
and succeeds with the interactive bearer. -/
theorem C2_counterexample :
    refresh_and_cache
        ⟨fun _ => .error (),
         fun c => if c = "thecode" then .ok ⟨"ib", none⟩ else .error (),
         "thecode"⟩
        ⟨none, none⟩
      = (.ok "ib", ⟨none, some "ib"⟩, [.codeExchangeCall]) ∧
    Event.codeExchangeCall ∈ [Event.codeExchangeCall] := by
  exact ⟨rfl, by simp⟩

/-- C2 (amended): with no refresh credential configured, the refresh step
itself (`refresh_bearer_token`) does fail with `OauthRequired` without any
network call, but `refresh_and_cache` does not stop there: `request_bearer`
falls back to the interactive flow, whose result and trace become those of
the forced refresh — so `refresh_and_cache` never fails with
`OauthRequired`. -/
theorem C2_amended_fallback (env : Env) (st : AuthState)
    (h : st.refresh_token = none) :
    refresh_bearer_token env st = (.error .OauthRequired, []) ∧
    (refresh_and_cache env st).1 = (interactive_flow env).1 ∧
    (refresh_and_cache env st).2.2 = (interactive_flow env).2 ∧
    (refresh_and_cache env st).1 ≠ .error .OauthRequired := by
  have h1 : refresh_bearer_token env st = (.error .OauthRequired, []) := by
    simp [refresh_bearer_token, h]
  have h2 : request_bearer env st
      = ((interactive_flow env).1, (interactive_flow env).2) := by
    unfold request_bearer
    rw [h1]
    cases hif : interactive_flow env with
    | mk r tr => simp
  refine ⟨h1, ?_, ?_, ?_⟩
  · cases hif : (interactive_flow env).1 with
    | error e => simp [refresh_and_cache, h2, hif]
    | ok b => simp [refresh_and_cache, h2, hif]
  · cases hif : (interactive_flow env).1 with
    | error e => simp [refresh_and_cache, h2, hif]
    | ok b => simp [refresh_and_cache, h2, hif]
  · rcases interactive_flow_error_shape env with hs | hs | ⟨b, hs⟩ <;>
      simp [refresh_and_cache, h2, hs]

/-- Witness for `C2_amended_fallback` at the counterexample's input: with
no refresh token, the forced refresh returns the interactive flow's
result. -/
theorem C2_amended_fallback_witness :
    (refresh_and_cache
        ⟨fun _ => .error (),
         fun c => if c = "thecode" then .ok ⟨"ib", none⟩ else .error (),
         "thecode"⟩ ⟨none, none⟩).1
      = (interactive_flow
          ⟨fun _ => .error (),
           fun c => if c = "thecode" then .ok ⟨"ib", none⟩ else .error (),
           "thecode"⟩).1 :=
  (C2_amended_fallback _ _ rfl).2.1

/-- C5: with a bearer already cached, `authenticate` returns it at once:
the state is untouched and the trace is empty (no network exchange of any
kind). -/
theorem C5_cached_returned_immediately (env : Env) (st : AuthState)
    (b : String) (h : st.bearer_token = some b) :
    authenticate env st = (.ok b, st, []) := by
  simp [authenticate, h]

/-- Witness for `C5_cached_returned_immediately`: a manager holding cached
bearer `"b1"` returns it with no state change and no events. -/
theorem C5_cached_returned_immediately_witness :
    authenticate ⟨fun _ => .error (), fun _ => .error (), ""⟩
        ⟨none, some "b1"⟩
      = (.ok "b1", ⟨none, some "b1"⟩, []) :=
  C5_cached_returned_immediately _ _ "b1" rfl

/-- C7: when the trimmed operator input is empty (blank or
whitespace-only), `interactive_flow` fails with the empty-authorization-
code error — realized in the code as
`Error::any("authorization code cannot be empty")` — and the trace is
empty: the token endpoint is never contacted. -/
theorem C7_empty_code_no_exchange (env : Env)
    (h : (trimInput env.operatorInput).isEmpty = true) :
    interactive_flow env
      = (.error (.Any "authorization code cannot be empty"), []) := by
  simp [interactive_flow, h]

/-- Witness for `C7_empty_code_no_exchange` on whitespace-only input. -/
theorem C7_empty_code_no_exchange_witness :
    interactive_flow ⟨fun _ => .error (), fun _ => .ok ⟨"x", none⟩, "  "⟩
      = (.error (.Any "authorization code cannot be empty"), []) :=
  C7_empty_code_no_exchange _ (by decide)

/-- Number of refresh-grant token-endpoint calls recorded in a trace. -/
def countRefreshCalls (tr : List Event) : Nat :=
  (tr.filter fun e =>
    match e with
    | .refreshExchangeCall => true
    | _ => false).length

/-- Number of authorization-code token-endpoint calls recorded in a
trace. -/
def countCodeCalls (tr : List Event) : Nat :=
  (tr.filter fun e =>
    match e with
    | .codeExchangeCall => true
    | _ => false).length

theorem countRefreshCalls_append (a b : List Event) :
    countRefreshCalls (a ++ b) = countRefreshCalls a + countRefreshCalls b := by
  simp [countRefreshCalls, List.filter_append]

theorem countCodeCalls_append (a b : List Event) :
    countCodeCalls (a ++ b) = countCodeCalls a + countCodeCalls b := by
  simp [countCodeCalls, List.filter_append]

theorem countDownstream_append (a b : List Event) :
    countDownstream (a ++ b) = countDownstream a + countDownstream b := by
  simp [countDownstream, List.filter_append]

theorem refresh_counts (env : Env) (st : AuthState) :
    countRefreshCalls (refresh_bearer_token env st).2 ≤ 1 ∧
    countCodeCalls (refresh_bearer_token env st).2 = 0 ∧
    countDownstream (refresh_bearer_token env st).2 = 0 := by
  unfold refresh_bearer_token
  cases hrt : st.refresh_token with
  | none => simp [countRefreshCalls, countCodeCalls, countDownstream]
  | some rt =>
    cases hex : env.refreshExchange rt with
    | error e =>
      simp [hex, countRefreshCalls, countCodeCalls, countDownstream,
        List.filter]
    | ok resp =>
      cases hrr : resp.refresh_token with
      | none =>
        simp [hex, hrr, countRefreshCalls, countCodeCalls, countDownstream,
          List.filter]
      | some t =>
        simp [hex, hrr, countRefreshCalls, countCodeCalls, countDownstream,
          List.filter]

theorem interactive_counts (env : Env) :
    countRefreshCalls (interactive_flow env).2 = 0 ∧
    countCodeCalls (interactive_flow env).2 ≤ 1 ∧
    countDownstream (interactive_flow env).2 = 0 := by
  unfold interactive_flow
  by_cases h : (trimInput env.operatorInput).isEmpty
  · simp [h, countRefreshCalls, countCodeCalls, countDownstream]
  · simp only [h, Bool.false_eq_true, if_false]
    cases hc : env.codeExchange (trimInput env.operatorInput) with
    | error e =>
      simp [hc, countRefreshCalls, countCodeCalls, countDownstream,
        List.filter]
    | ok resp =>
      cases hrr : resp.refresh_token with
      | none =>
        simp [hc, hrr, countRefreshCalls, countCodeCalls, countDownstream,
          List.filter]
      | some t =>
        simp [hc, hrr, countRefreshCalls, countCodeCalls, countDownstream,
          List.filter]

theorem request_bearer_counts (env : Env) (st : AuthState) :
    countRefreshCalls (request_bearer env st).2 ≤ 1 ∧
    countCodeCalls (request_bearer env st).2 ≤ 1 ∧
    countDownstream (request_bearer env st).2 = 0 := by
  have hr := refresh_counts env st
  have hi := interactive_counts env
  unfold request_bearer
  cases h : refresh_bearer_token env st with
  | mk r tr =>
    rw [h] at hr
    simp only at hr
    cases h2 : interactive_flow env with
    | mk r2 tr2 =>
      rw [h2] at hi
      simp only at hi
      cases r with
      | ok b =>
        refine ⟨hr.1, ?_, hr.2.2⟩
        show countCodeCalls tr ≤ 1
        omega
      | error e =>
        show countRefreshCalls (tr ++ tr2) ≤ 1 ∧
          countCodeCalls (tr ++ tr2) ≤ 1 ∧ countDownstream (tr ++ tr2) = 0
        simp only [countRefreshCalls_append, countCodeCalls_append,
          countDownstream_append]
        omega

/-- C6: the acquisition protocol (`request_bearer`). Whenever a refresh
credential is configured the trace starts with the refresh-grant exchange
(refresh attempted first); when the refresh step succeeds its bearer is
returned and no code exchange happens; when the refresh step fails — be it
because no refresh token is configured or because the server rejected the
exchange — the result is exactly that of the interactive flow (the
fallback); and in every case at most one refresh exchange and at most one
code exchange are performed (no internal retry beyond the fallback
chain). -/
theorem C6_acquisition_protocol (env : Env) (st : AuthState) :
    (∀ rt, st.refresh_token = some rt →
      ∃ rest, (request_bearer env st).2 = Event.refreshExchangeCall :: rest) ∧
    (∀ b tr, refresh_bearer_token env st = (.ok b, tr) →
      (request_bearer env st).1 = .ok b ∧
      countCodeCalls (request_bearer env st).2 = 0) ∧
    (∀ e tr, refresh_bearer_token env st = (.error e, tr) →
      (request_bearer env st).1 = (interactive_flow env).1) ∧
    countRefreshCalls (request_bearer env st).2 ≤ 1 ∧
    countCodeCalls (request_bearer env st).2 ≤ 1 := by
  have hcounts := request_bearer_counts env st
  refine ⟨?_, ?_, ?_, hcounts.1, hcounts.2.1⟩
  · intro rt hrt
    have hshape : ∃ rest,
        (refresh_bearer_token env st).2 = Event.refreshExchangeCall :: rest := by
      unfold refresh_bearer_token
      rw [hrt]
      cases hex : env.refreshExchange rt with
      | error e => exact ⟨[], by simp [hex]⟩
      | ok resp =>
        cases hrr : resp.refresh_token with
        | none => exact ⟨[], by simp [hex, hrr]⟩
        | some t => exact ⟨[Event.surfaceRefresh t], by simp [hex, hrr]⟩
    obtain ⟨rest, hrest⟩ := hshape
    unfold request_bearer
    cases h : refresh_bearer_token env st with
    | mk r tr =>
      rw [h] at hrest
      have htr : tr = Event.refreshExchangeCall :: rest := hrest
      cases r with
      | ok b => exact ⟨rest, htr⟩
      | error e =>
        cases h2 : interactive_flow env with
        | mk r2 tr2 =>
          refine ⟨rest ++ tr2, ?_⟩
          show tr ++ tr2 = Event.refreshExchangeCall :: (rest ++ tr2)
          simp [htr]
  · intro b tr h
    have hr := refresh_counts env st
    rw [h] at hr
    simp only at hr
    unfold request_bearer
    rw [h]
    exact ⟨rfl, hr.2.1⟩
  · intro e tr h
    unfold request_bearer
    rw [h]

/-- Witness for `C6_acquisition_protocol`: with a configured refresh token
the acquisition's trace opens with the refresh exchange. -/
theorem C6_acquisition_protocol_witness :
    ∃ rest,
      (request_bearer ⟨fun _ => .ok ⟨"b1", none⟩, fun _ => .error (), ""⟩
        ⟨some "rt", none⟩).2 = Event.refreshExchangeCall :: rest :=
  (C6_acquisition_protocol _ _).1 "rt" rfl

/-- C9: whenever an exchange succeeds and the authorization server's
response carries a (rotated) refresh token, that token is surfaced (the
`tracing::info!` lines handing it to the operator/persistence
collaborator appear in the trace) — on the refresh-grant path and on the
authorization-code path alike. -/
theorem C9_surface_rotated_refresh (env : Env) (st : AuthState)
    (rt t : String) (resp : TokenResponse) :
    (st.refresh_token = some rt → env.refreshExchange rt = .ok resp →
      resp.refresh_token = some t →
      Event.surfaceRefresh t ∈ (refresh_bearer_token env st).2) ∧
    ((trimInput env.operatorInput).isEmpty = false →
      env.codeExchange (trimInput env.operatorInput) = .ok resp →
      resp.refresh_token = some t →
      Event.surfaceRefresh t ∈ (interactive_flow env).2) := by
  constructor
  · intro h1 h2 h3
    simp [refresh_bearer_token, h1, h2, h3]
  · intro h1 h2 h3
    simp [interactive_flow, h1, h2, h3]

/-- Witness for `C9_surface_rotated_refresh`: a refresh exchange answered
with rotated refresh token `"r2"` surfaces `"r2"`. -/
theorem C9_surface_rotated_refresh_witness :
    Event.surfaceRefresh "r2" ∈
      (refresh_bearer_token
        ⟨fun _ => .ok ⟨"b1", some "r2"⟩, fun _ => .error (), ""⟩
        ⟨some "rt", none⟩).2 :=
  (C9_surface_rotated_refresh _ _ "rt" "r2" ⟨"b1", some "r2"⟩).1 rfl rfl rfl

theorem refresh_and_cache_no_downstream (env : Env) (st : AuthState) :
    countDownstream (refresh_and_cache env st).2.2 = 0 := by
  have hc := (request_bearer_counts env st).2.2
  unfold refresh_and_cache
  cases h : request_bearer env st with
  | mk r tr =>
    rw [h] at hc
    cases r <;> simpa using hc

theorem authenticate_no_downstream (env : Env) (st : AuthState) :
    countDownstream (authenticate env st).2.2 = 0 := by
  unfold authenticate
  cases hb : st.bearer_token with
  | some b => simp [countDownstream]
  | none => exact refresh_and_cache_no_downstream env st

theorem refresh_and_cache_preserves_some (env : Env) (st : AuthState)
    (h : st.bearer_token.isSome = true) :
    (refresh_and_cache env st).2.1.bearer_token.isSome = true := by
  unfold refresh_and_cache
  cases hr : request_bearer env st with
  | mk r tr =>
    cases r with
    | ok b => simp
    | error e => simpa using h

/-- C4: the retry protocol of `execute_request`. When the first downstream
attempt comes back 401, the request layer forces a refresh
(`refresh_and_cache`) and — if that yields a fresh bearer — retries the
same call exactly once with it: the event trace is precisely
"acquisition, call with the old bearer, forced refresh, call with the new
bearer", holding exactly two downstream calls; and if the retried attempt
is also 401 the whole call fails with `Unauthorized` (no third
attempt). -/
theorem C4_single_retry_then_unauthorized {T : Type}
    (parseApiError : String → Option ApiError) (parseT : String → Option T)
    (send : Nat → String → Response) (env : Env) (st : AuthState)
    (t0 t1 : String) (st1 st2 : AuthState) (tr1 tr2 : List Event)
    (h0 : authenticate env st = (.ok t0, st1, tr1))
    (h1 : (send 0 t0).status = 401)
    (h2 : refresh_and_cache env st1 = (.ok t1, st2, tr2)) :
    (execute_request parseApiError parseT send env st).2.2
      = tr1 ++ [.downstreamCall t0] ++ tr2 ++ [.downstreamCall t1] ∧
    countDownstream (execute_request parseApiError parseT send env st).2.2
      = 2 ∧
    ((send 1 t1).status = 401 →
      (execute_request parseApiError parseT send env st).1
        = .error .Unauthorized) := by
  have c1 : countDownstream tr1 = 0 := by
    have hl := authenticate_no_downstream env st
    rw [h0] at hl
    simpa using hl
  have c2 : countDownstream tr2 = 0 := by
    have hl := refresh_and_cache_no_downstream env st1
    rw [h2] at hl
    simpa using hl
  have heval : execute_request parseApiError parseT send env st
      = (match handle_response parseApiError (send 1 t1) with
         | .error e => (.error e, st2,
             tr1 ++ [.downstreamCall t0] ++ tr2 ++ [.downstreamCall t1])
         | .ok txt =>
           match parseT txt with
           | some v => (.ok v, st2,
               tr1 ++ [.downstreamCall t0] ++ tr2 ++ [.downstreamCall t1])
           | none => (.error .SerdeJson, st2,
               tr1 ++ [.downstreamCall t0] ++ tr2 ++ [.downstreamCall t1])) := by
    simp [execute_request, h0, h1, h2]
  have htrace : (execute_request parseApiError parseT send env st).2.2
      = tr1 ++ [.downstreamCall t0] ++ tr2 ++ [.downstreamCall t1] := by
    rw [heval]
    cases hhr : handle_response parseApiError (send 1 t1) with
    | error e => simp [hhr]
    | ok txt => cases hpt : parseT txt <;> simp [hhr, hpt]
  refine ⟨htrace, ?_, ?_⟩
  · have s1 : countDownstream [Event.downstreamCall t0] = 1 := rfl
    have s2 : countDownstream [Event.downstreamCall t1] = 1 := rfl
    rw [htrace]
    simp only [countDownstream_append, c1, c2, s1, s2]
  · intro h401
    have hhr : handle_response parseApiError (send 1 t1)
        = .error .Unauthorized := by
      simp [handle_response, h401]
    rw [heval, hhr]

/-- Witness for `C4_single_retry_then_unauthorized`: a downstream endpoint
that always answers 401 makes the call fail `Unauthorized` after the
single retry with the refreshed bearer. -/
theorem C4_single_retry_then_unauthorized_witness :
    (execute_request (fun _ => none) (fun _ => (none : Option Nat))
        (fun _ _ => ⟨401, "denied"⟩)
        ⟨fun _ => .ok ⟨"b2", none⟩, fun _ => .error (), ""⟩
        ⟨some "rt", some "b1"⟩).1 = .error .Unauthorized :=
  (C4_single_retry_then_unauthorized (fun _ => none)
      (fun _ => (none : Option Nat)) (fun _ _ => ⟨401, "denied"⟩)
      ⟨fun _ => .ok ⟨"b2", none⟩, fun _ => .error (), ""⟩
      ⟨some "rt", some "b1"⟩ "b1" "b2" ⟨some "rt", some "b1"⟩
      ⟨some "rt", some "b2"⟩ [] [.refreshExchangeCall]
      rfl rfl rfl).2.2 rfl

/-- C8 (implicit): once the bearer-token slot holds a value it is never
reset to `None` by any operation: `authenticate` returns the state
untouched, `refresh_and_cache` either overwrites the slot with a new
`Some` (success) or leaves the state unchanged (failure), and
`execute_request` — which on 401 overwrites the slot via
`refresh_and_cache` rather than clearing it — also ends with the slot
populated. -/
theorem C8_cached_never_cleared {T : Type}
    (parseApiError : String → Option ApiError) (parseT : String → Option T)
    (send : Nat → String → Response) (env : Env) (st : AuthState)
    (h : st.bearer_token.isSome = true) :
    (authenticate env st).2.1 = st ∧
    (refresh_and_cache env st).2.1.bearer_token.isSome = true ∧
    (execute_request parseApiError parseT send env st).2.1.bearer_token.isSome
      = true := by
  obtain ⟨b, hb⟩ := Option.isSome_iff_exists.mp h
  have hauth : authenticate env st = (.ok b, st, []) := by
    simp [authenticate, hb]
  refine ⟨by rw [hauth], refresh_and_cache_preserves_some env st h, ?_⟩
  unfold execute_request
  rw [hauth]
  by_cases h401 : ((send 0 b).status == 401) = true
  · simp only [h401, if_true]
    have hp := refresh_and_cache_preserves_some env st h
    cases hrc : refresh_and_cache env st with
    | mk r2 rest =>
      cases rest with
      | mk st2 tr2 =>
        rw [hrc] at hp
        simp only at hp
        cases r2 with
        | error e => simpa using hp
        | ok t1 =>
          cases hhr : handle_response parseApiError (send 1 t1) with
          | error e => simpa [hhr] using hp
          | ok txt => cases hpt : parseT txt <;> simpa [hhr, hpt] using hp
  · simp only [Bool.not_eq_true] at h401
    simp only [h401, Bool.false_eq_true, if_false]
    cases hhr : handle_response parseApiError (send 0 b) with
    | error e => simpa [hhr] using h
    | ok txt => cases hpt : parseT txt <;> simpa [hhr, hpt] using h

/-- Witness for `C8_cached_never_cleared`: with bearer `"b"` cached and a
succeeding downstream call, the slot is still populated afterwards. -/
theorem C8_cached_never_cleared_witness :
    (execute_request (fun _ => none) (fun s => some s)
        (fun _ _ => ⟨200, "ok"⟩)
        ⟨fun _ => .error (), fun _ => .error (), ""⟩
        ⟨none, some "b"⟩).2.1.bearer_token.isSome = true :=
  (C8_cached_never_cleared (fun _ => none) (fun s => some s)
      (fun _ _ => ⟨200, "ok"⟩)
      ⟨fun _ => .error (), fun _ => .error (), ""⟩
      ⟨none, some "b"⟩ rfl).2.2

/-- C10: status mapping of `handle_response` and the no-retry behaviour
for 429. Success statuses yield the body text; 429 maps to `RateLimit`;
any other non-success, non-401 status maps to the structured `ApiError`
when the body parses as one and otherwise to the opaque
`Error::any("{status}: {txt}")`; and a 429 on the first attempt makes
`execute_request` fail `RateLimited` after exactly one downstream call —
no retry. -/
theorem C10_status_mapping (parseApiError : String → Option ApiError)
    (resp : Response) :
    (statusIsSuccess resp.status = true →
      handle_response parseApiError resp = .ok resp.body) ∧
    (resp.status = 429 →
      handle_response parseApiError resp = .error .RateLimit) ∧
    (statusIsSuccess resp.status = false → resp.status ≠ 401 →
      resp.status ≠ 429 →
      (∀ e, parseApiError resp.body = some e →
        handle_response parseApiError resp = .error (.Api e)) ∧
      (parseApiError resp.body = none →
        handle_response parseApiError resp
          = .error (.Any (toString resp.status ++ ": " ++ resp.body)))) ∧
    (∀ (T : Type) (parseT : String → Option T)
       (send : Nat → String → Response) (env : Env) (st : AuthState)
       (t0 : String) (st1 : AuthState) (tr1 : List Event),
      authenticate env st = (.ok t0, st1, tr1) →
      (send 0 t0).status = 429 →
      execute_request parseApiError parseT send env st
        = (.error .RateLimit, st1, tr1 ++ [.downstreamCall t0]) ∧
      countDownstream (tr1 ++ [Event.downstreamCall t0]) = 1) := by
  refine ⟨?_, ?_, ?_, ?_⟩
  · intro h
    have hs : 200 ≤ resp.status ∧ resp.status < 300 := by
      simpa [statusIsSuccess] using h
    have h401 : resp.status ≠ 401 := by omega
    have h429 : resp.status ≠ 429 := by omega
    simp [handle_response, h401, h429, h]
  · intro h
    simp [handle_response, h]
  · intro h h401 h429
    constructor
    · intro e hpe
      simp [handle_response, h401, h429, h, hpe]
    · intro hpe
      simp [handle_response, h401, h429, h, hpe]
  · intro T parseT send env st t0 st1 tr1 h0 h429
    have c1 : countDownstream tr1 = 0 := by
      have hl := authenticate_no_downstream env st
      rw [h0] at hl
      simpa using hl
    constructor
    · have hhr : handle_response parseApiError (send 0 t0)
          = .error .RateLimit := by
        simp [handle_response, h429]
      simp [execute_request, h0, h429, hhr]
    · have s1 : countDownstream [Event.downstreamCall t0] = 1 := rfl
      simp only [countDownstream_append, c1, s1]

/-- Witness for `C10_status_mapping`: a 429 response maps to the
rate-limit error kind. -/
theorem C10_status_mapping_witness :
    handle_response (fun _ => none) ⟨429, "slow down"⟩
      = .error .RateLimit :=
  (C10_status_mapping (fun _ => none) ⟨429, "slow down"⟩).2.1 rfl

theorem setTask_eq_exchanging (ts : Nat → TaskPC) (k i : Nat) (v : TaskPC)
    (hi : setTask ts k v i = .exchanging) :
    (i = k ∧ v = .exchanging) ∨ (i ≠ k ∧ ts i = .exchanging) := by
  unfold setTask at hi
  by_cases hik : i = k
  · rw [if_pos hik] at hi
    exact Or.inl ⟨hik, hi⟩
  · rw [if_neg hik] at hi
    exact Or.inr ⟨hik, hi⟩

theorem lockGood_step (bearers : Nat → String) (s : Sys) (k : Nat)
    (h : lockGood s) : lockGood (stepTask bearers s k) := by
  cases hpc : s.tasks k with
  | ready =>
    by_cases hl : s.lockOwner = none
    · cases hc : s.cache with
      | some b =>
        have hstep : stepTask bearers s k
            = { s with tasks := setTask s.tasks k (.finished b) } := by
          simp [stepTask, hpc, hl, hc]
        rw [hstep]
        intro i hi
        rcases setTask_eq_exchanging _ _ _ _ hi with ⟨_, hv⟩ | ⟨_, hold⟩
        · exact absurd hv (by simp)
        · exact absurd (hl ▸ h i hold) (by simp)
      | none =>
        have hstep : stepTask bearers s k
            = { s with tasks := setTask s.tasks k TaskPC.waitWrite } := by
          simp [stepTask, hpc, hl, hc]
        rw [hstep]
        intro i hi
        rcases setTask_eq_exchanging _ _ _ _ hi with ⟨_, hv⟩ | ⟨_, hold⟩
        · exact absurd hv (by simp)
        · exact absurd (hl ▸ h i hold) (by simp)
    · have hstep : stepTask bearers s k = s := by
        simp [stepTask, hpc, hl]
      rw [hstep]
      exact h
  | waitWrite =>
    by_cases hl : s.lockOwner = none
    · have hstep : stepTask bearers s k
          = { s with
              lockOwner := some k
              tasks := setTask s.tasks k TaskPC.exchanging } := by
        simp [stepTask, hpc, hl]
      rw [hstep]
      intro i hi
      rcases setTask_eq_exchanging _ _ _ _ hi with ⟨hik, _⟩ | ⟨_, hold⟩
      · rw [hik]
      · exact absurd (hl ▸ h i hold) (by simp)
    · have hstep : stepTask bearers s k = s := by
        simp [stepTask, hpc, hl]
      rw [hstep]
      exact h
  | exchanging =>
    by_cases hl : s.lockOwner = some k
    · have hstep : stepTask bearers s k
          = { cache := some (bearers s.exchanges), lockOwner := none,
              tasks := setTask s.tasks k (.finished (bearers s.exchanges)),
              exchanges := s.exchanges + 1 } := by
        simp [stepTask, hpc, hl]
      rw [hstep]
      intro i hi
      rcases setTask_eq_exchanging _ _ _ _ hi with ⟨_, hv⟩ | ⟨hik, hold⟩
      · exact absurd hv (by simp)
      · exact absurd (Option.some.inj (hl ▸ h i hold)).symm hik
    · have hstep : stepTask bearers s k = s := by
        simp [stepTask, hpc, hl]
      rw [hstep]
      exact h
  | finished b =>
    have hstep : stepTask bearers s k = s := by
      simp [stepTask, hpc]
    rw [hstep]
    exact h

theorem lockGood_run (bearers : Nat → String) (sched : List Nat) (s : Sys)
    (h : lockGood s) : lockGood (run bearers s sched) := by
  induction sched generalizing s with
  | nil => exact h
  | cons i rest ih => exact ih _ (lockGood_step bearers s i h)

/-- C3: as stated the claim is false. Two `authenticate()` callers
scheduled against a manager with an empty cache both read the empty cache
(steps `[0, 1]`), then serialize on the write lock — but
`refresh_and_cache` never re-reads the cache after acquiring the lock, so
each performs its own acquisition: the machine ends with two completed
network exchanges and the two callers hold different bearer credentials
(`"first"` and `"second"`). -/
theorem C3_counterexample :
    (run (fun k => if k = 0 then "first" else "second")
        ⟨none, none, fun _ => .ready, 0⟩ [0, 1, 0, 0, 1, 1]).exchanges = 2 ∧
    (run (fun k => if k = 0 then "first" else "second")
        ⟨none, none, fun _ => .ready, 0⟩ [0, 1, 0, 0, 1, 1]).tasks 0
      = .finished "first" ∧
    (run (fun k => if k = 0 then "first" else "second")
        ⟨none, none, fun _ => .ready, 0⟩ [0, 1, 0, 0, 1, 1]).tasks 1
      = .finished "second" ∧
    "first" ≠ "second" := by
  refine ⟨rfl, rfl, rfl, by decide⟩

/-- C3 (amended): concurrent `authenticate()` calls against one manager
are serialized by the bearer-cache write lock — under every schedule the
lock-discipline invariant is preserved and at most one task has an
acquisition exchange in flight at any time — but callers that all observed
the empty cache each run their own acquisition once they get the lock, so
several (sequential) network exchanges can occur and callers can receive
different credentials, as `C3_counterexample` exhibits. -/
theorem C3_amended_serialized (bearers : Nat → String) (sched : List Nat)
    (s : Sys) (h : lockGood s) :
    lockGood (run bearers s sched) ∧
    ∀ i j, (run bearers s sched).tasks i = .exchanging →
      (run bearers s sched).tasks j = .exchanging → i = j := by
  have hg := lockGood_run bearers sched s h
  refine ⟨hg, fun i j hi hj => ?_⟩
  have h1 := hg i hi
  have h2 := hg j hj
  rw [h1] at h2
  exact Option.some.inj h2

/-- Witness for `C3_amended_serialized` on the counterexample's initial
state and schedule: the lock discipline holds throughout and no two tasks
exchange at once. -/
theorem C3_amended_serialized_witness :
    lockGood (run (fun k => if k = 0 then "first" else "second")
      ⟨none, none, fun _ => .ready, 0⟩ [0, 1, 0, 0, 1, 1]) :=
  (C3_amended_serialized (fun k => if k = 0 then "first" else "second")
      [0, 1, 0, 0, 1, 1] ⟨none, none, fun _ => .ready, 0⟩
      (fun i hi => absurd hi (by simp))).1

end Xv2api
